import Mathlib

/-!
Verification development for the TechCheck FDV thesis-validation backend.

Text is modelled as `List Char` (one entry per Python character), so Python
string slicing, `len`, `upper()` and membership tests translate directly.
Definitions are transcribed from the Python source files:
  * `simple_ai_validator.py` — sampling policy, response parsing;
  * `app.py` — job orchestration (`process_validation`);
  * `pdf_annotator.py` — the two report renderers and their selection.
-/

namespace TechCheck

/-- Python `t[-k:]`: the last `k` characters, or all of `t` when `len(t) < k`
(truncated `Nat` subtraction gives exactly that behaviour). -/
def takeLast (t : List Char) (k : Nat) : List Char :=
  t.drop (t.length - k)

/-- From `simple_ai_validator.py`, `SimpleAIValidator.validate_with_ai`
(lines 47-59): the text sample assembled from the extracted PDF text.
`front = pdf_text[:10000]`; for texts longer than 20000 characters the
sample is `front + "\n\n--- MIDDLE SAMPLE ---\n" + pdf_text[len//2 : len//2+5000]
+ "\n\n--- END SECTION ---\n" + pdf_text[-5000:]`; otherwise `pdf_text[:20000]`. -/
def combinedText (pdf_text : List Char) : List Char :=
  let front_text := pdf_text.take 10000
  if pdf_text.length > 20000 then
    let middle_sample := (pdf_text.drop (pdf_text.length / 2)).take 5000
    let end_text := takeLast pdf_text 5000
    front_text ++ "\n\n--- MIDDLE SAMPLE ---\n".toList ++ middle_sample
      ++ "\n\n--- END SECTION ---\n".toList ++ end_text
  else
    pdf_text.take 20000

/-- The sampling policy as the specification words it (spec §4.3): the first
10000 characters, a 5000-character slice *centered at the midpoint*, and the
last 5000 characters, *each* segment preceded by its label (`FRONT`,
`MIDDLE SAMPLE`, `END SECTION`), rendered in the delimiter style the code
uses for the labels it does emit.  This definition follows the spec's words,
for comparison with `combinedText`, which follows the source. -/
def specSample (t : List Char) : List Char :=
  "--- FRONT ---\n".toList ++ t.take 10000
    ++ "\n\n--- MIDDLE SAMPLE ---\n".toList ++ ((t.drop (t.length / 2 - 2500)).take 5000)
    ++ "\n\n--- END SECTION ---\n".toList ++ takeLast t 5000

/-- The sample produced for a text of length 25000: the unlabeled first
10000 characters, then the `MIDDLE SAMPLE` label and the slice starting at
the midpoint (characters 12500..17499), then the `END SECTION` label and
the last 5000 characters. -/
theorem combinedText_of_length_25000 (t : List Char) (h : t.length = 25000) :
    combinedText t =
      t.take 10000 ++ "\n\n--- MIDDLE SAMPLE ---\n".toList ++ (t.drop 12500).take 5000
        ++ "\n\n--- END SECTION ---\n".toList ++ t.drop 20000 := by
  simp [combinedText, takeLast, h]

/-! ### Finding Normalizer: heuristic fallback tier
(`simple_ai_validator.py`, `SimpleAIValidator.parse_text_response`, lines 253-295) -/

/-- Python `needle in hay` on strings: substring containment. -/
def containsSub (needle hay : List Char) : Bool :=
  (List.range (hay.length + 1)).any (fun i => needle.isPrefixOf (hay.drop i))

/-- Python `s.upper()` (the parser only compares against ASCII keywords, so
ASCII uppercasing is the behaviour exercised). -/
def pyUpper (s : List Char) : List Char := s.map Char.toUpper

/-- Python `s.strip()`: whitespace trimmed from both ends. -/
def pyStrip (s : List Char) : List Char :=
  ((s.dropWhile Char.isWhitespace).reverse.dropWhile Char.isWhitespace).reverse

/-- Python `s.split('\n')`: split at every newline, keeping empty pieces
(`"".split('\n') == [""]`). -/
def splitNl : List Char → List (List Char)
  | [] => [[]]
  | c :: cs =>
    if c = '\n' then [] :: splitNl cs
    else
      match splitNl cs with
      | l :: ls => (c :: l) :: ls
      | [] => [[c]]

/-- One parsed error record, `{"page_num": ..., "severity": ..., "message": ...,
"error_type": ...}` in the Python dicts built by the validator. -/
structure Finding where
  page_num : Int
  severity : List Char
  message : List Char
  error_type : List Char
deriving DecidableEq, Repr

/-- The trigger words of `parse_text_response` line 265: a line starts a new
error record exactly when its uppercased text contains one of these. -/
def triggerWords : List (List Char) :=
  ["CRITICAL".toList, "MAJOR".toList, "MINOR".toList, "ERROR".toList,
   "VIOLATION".toList, "WRONG".toList, "MISSING".toList]

/-- Severity inference of `parse_text_response` lines 269-274, applied to the
uppercased line: `CRITICAL`/`MUST` → CRITICAL, else `MAJOR`/`IMPORTANT` →
MAJOR, else MINOR. -/
def severityOfLine (up : List Char) : List Char :=
  if containsSub ("CRITICAL".toList) up || containsSub ("MUST".toList) up then
    "CRITICAL".toList
  else if containsSub ("MAJOR".toList) up || containsSub ("IMPORTANT".toList) up then
    "MAJOR".toList
  else "MINOR".toList

/-- The line loop of `parse_text_response` (lines 258-284): `cur` is the
`current_error` being accumulated (`{}`, i.e. `none`, initially); a trigger
line flushes it and starts a fresh record; the final record is flushed at
the end. -/
def scanLines : List (List Char) → Option Finding → List Finding
  | [], cur => match cur with | some e => [e] | none => []
  | l :: ls, cur =>
    let line := pyStrip l
    if line = [] then scanLines ls cur
    else if triggerWords.any (fun w => containsSub w (pyUpper line)) then
      let newErr : Finding :=
        { page_num := 0, severity := severityOfLine (pyUpper line),
          message := line, error_type := "formatting".toList }
      match cur with
      | some e => e :: scanLines ls (some newErr)
      | none => scanLines ls (some newErr)
    else scanLines ls cur

/-- The trigger-line scan of the heuristic tier: split the raw response at
newlines and run the line loop. -/
def scanFindings (response : List Char) : List Finding :=
  scanLines (splitNl response) none

/-- The catch-all record of `parse_text_response` lines 287-293, emitted when
the scan found nothing and the response is longer than 50 characters. -/
def fallbackFinding (response : List Char) : Finding :=
  { page_num := 0, severity := "MAJOR".toList,
    message := "Validation completed. AI response: ".toList
      ++ response.take 200 ++ "...".toList,
    error_type := "analysis".toList }

/-- Model of `SimpleAIValidator.parse_text_response` (lines 253-295). -/
def parse_text_response (response : List Char) : List Finding :=
  let errors := scanFindings response
  if errors = [] ∧ response.length > 50 then [fallbackFinding response]
  else errors

/-! ### Finding Normalizer: structured tier
(`simple_ai_validator.py`, `SimpleAIValidator.parse_ai_response`, lines 235-251)

The structured tier slices the response between the first `[` and the last
`]` and feeds the slice to `json.loads`.  JSON values are modelled by
`JValue`; `jsonParse` models `json.loads` on the JSON fragment the validator
exercises (null/true/false, integer numbers, escape-free strings, arrays,
objects); inputs outside that fragment fail to parse, which the caller
treats like a decode exception. -/

inductive JValue where
  | jnull
  | jbool (b : Bool)
  | jnum (n : Int)
  | jstr (s : List Char)
  | jarr (xs : List JValue)
  | jobj (fields : List (List Char × JValue))

/-- JSON insignificant whitespace. -/
def isJsonWs (c : Char) : Bool := c = ' ' || c = '\n' || c = '\t' || c = '\r'

def skipWs (s : List Char) : List Char := s.dropWhile isJsonWs

/-- Body of a JSON string after the opening quote: the decoded characters and
the remainder after the closing quote.  Escape sequences are outside the
modelled fragment and fail. -/
def parseStringBody : List Char → Option (List Char × List Char)
  | [] => none
  | c :: cs =>
    if c = '"' then some ([], cs)
    else if c = '\\' then none
    else
      match parseStringBody cs with
      | some (s, r) => some (c :: s, r)
      | none => none

def digitVal (c : Char) : Option Nat :=
  if '0' ≤ c ∧ c ≤ '9' then some (c.toNat - '0'.toNat) else none

def parseDigitsAux : List Char → Nat → Nat × List Char
  | [], acc => (acc, [])
  | c :: cs, acc =>
    match digitVal c with
    | some d => parseDigitsAux cs (acc * 10 + d)
    | none => (acc, c :: cs)

/-- A non-empty run of decimal digits, as a number plus the remainder. -/
def parseNat : List Char → Option (Nat × List Char)
  | [] => none
  | c :: cs =>
    match digitVal c with
    | some d => some (parseDigitsAux cs d)
    | none => none

mutual

/-- One JSON value, fuel-bounded recursive descent. -/
def parseValue : Nat → List Char → Option (JValue × List Char)
  | 0, _ => none
  | fuel + 1, s =>
    match skipWs s with
    | '"' :: r =>
      match parseStringBody r with
      | some (str, rest) => some (JValue.jstr str, rest)
      | none => none
    | '[' :: r =>
      (match skipWs r with
       | ']' :: rest => some (JValue.jarr [], rest)
       | _ =>
         match parseItems fuel r with
         | some (xs, rest) => some (JValue.jarr xs, rest)
         | none => none)
    | '\x7b' :: r =>
      (match skipWs r with
       | '\x7d' :: rest => some (JValue.jobj [], rest)
       | _ =>
         match parseMembers fuel r with
         | some (fs, rest) => some (JValue.jobj fs, rest)
         | none => none)
    | 't' :: 'r' :: 'u' :: 'e' :: r => some (JValue.jbool true, r)
    | 'f' :: 'a' :: 'l' :: 's' :: 'e' :: r => some (JValue.jbool false, r)
    | 'n' :: 'u' :: 'l' :: 'l' :: r => some (JValue.jnull, r)
    | '-' :: r =>
      match parseNat r with
      | some (n, rest) => some (JValue.jnum (-(n : Int)), rest)
      | none => none
    | s' =>
      match parseNat s' with
      | some (n, rest) => some (JValue.jnum (n : Int), rest)
      | none => none

/-- Comma-separated array items up to the closing bracket. -/
def parseItems : Nat → List Char → Option (List JValue × List Char)
  | 0, _ => none
  | fuel + 1, s =>
    match parseValue fuel s with
    | some (v, rest) =>
      (match skipWs rest with
       | ',' :: r =>
         match parseItems fuel r with
         | some (xs, rest2) => some (v :: xs, rest2)
         | none => none
       | ']' :: r => some ([v], r)
       | _ => none)
    | none => none

/-- Comma-separated `"key": value` object members up to the closing brace. -/
def parseMembers : Nat → List Char → Option (List (List Char × JValue) × List Char)
  | 0, _ => none
  | fuel + 1, s =>
    match skipWs s with
    | '"' :: r =>
      match parseStringBody r with
      | some (key, rest) =>
        (match skipWs rest with
         | ':' :: r2 =>
           match parseValue fuel r2 with
           | some (v, rest2) =>
             (match skipWs rest2 with
              | ',' :: r3 =>
                match parseMembers fuel r3 with
                | some (fs, rest3) => some ((key, v) :: fs, rest3)
                | none => none
              | '\x7d' :: r3 => some ([(key, v)], r3)
              | _ => none)
           | none => none
         | _ => none)
      | none => none
    | _ => none

end

/-- Model of `json.loads` on the modelled fragment: one value consuming the whole
input (trailing whitespace allowed). -/
def jsonParse (s : List Char) : Option JValue :=
  match parseValue (s.length + 1) s with
  | some (v, rest) => if skipWs rest = [] then some v else none
  | none => none

/-- Python `response.find('[')`: index of the first occurrence (`none` for
Python's `-1`). -/
def find_char (c : Char) (s : List Char) : Option Nat :=
  s.findIdx? (fun x => x = c)

/-- Python `response.rfind(']')`: index of the last occurrence. -/
def rfind_char (c : Char) (s : List Char) : Option Nat :=
  (s.reverse.findIdx? (fun x => x = c)).map (fun i => s.length - 1 - i)

/-- Lines 240-243 of `parse_ai_response`: `response[start_idx:end_idx]` with
`start_idx = response.find('[')` and `end_idx = response.rfind(']') + 1`,
provided both brackets occur (`start_idx != -1 and end_idx != 0`). -/
def bracketSlice (resp : List Char) : Option (List Char) :=
  match find_char '[' resp, rfind_char ']' resp with
  | some i, some j => some ((resp.take (j + 1)).drop i)
  | _, _ => none

/-- The heuristic-tier dicts as Python builds them, in insertion order. -/
def Finding.toJValue (f : Finding) : JValue :=
  .jobj [("page_num".toList, .jnum f.page_num),
         ("severity".toList, .jstr f.severity),
         ("message".toList, .jstr f.message),
         ("error_type".toList, .jstr f.error_type)]

/-- Model of `SimpleAIValidator.parse_ai_response` (lines 235-251): decode the
bracketed slice with `json.loads` and return the decoded records unchanged;
on a missing bracket pair or a decode failure, fall back to
`parse_text_response`.  A successful decode of a slice that starts at `[`
is always a JSON array, so the array case is the only successful one. -/
def parse_ai_response (resp : List Char) : List JValue :=
  match bracketSlice resp with
  | some json_str =>
    match jsonParse json_str with
    | some (JValue.jarr xs) => xs
    | _ => (parse_text_response resp).map Finding.toJValue
  | none => (parse_text_response resp).map Finding.toJValue

/-- First-match lookup in a modelled object's field list.  The validator's
own objects have unique keys, so first-match agrees with Python dicts. -/
def lookupFields : List (List Char × JValue) → List Char → Option JValue
  | [], _ => none
  | (k, w) :: fs, key => if k = key then some w else lookupFields fs key

/-- Python `dict.get(key)` on a modelled object (`none` both for a missing
key and for Python's `AttributeError` on a non-dict record). -/
def jlookup (v : JValue) (key : List Char) : Option JValue :=
  match v with
  | .jobj fs => lookupFields fs key
  | _ => none

/-- The synthetic record of `validate_with_ai`'s `except` branch
(lines 122-128). -/
def errorFinding (e : List Char) : JValue :=
  .jobj [("page_num".toList, .jnum 0),
         ("severity".toList, .jstr ("CRITICAL".toList)),
         ("message".toList, .jstr ("AI validation failed: ".toList ++ e)),
         ("error_type".toList, .jstr ("system_error".toList))]

/-- Model of `SimpleAIValidator.validate_with_ai` (lines 113-128), abstracted over the
single external text-completion call: on success the response content is
normalized by `parse_ai_response`; on any exception the function returns the
one synthetic record and performs no further call. -/
def validate_with_ai (callResult : Except (List Char) (List Char)) : List JValue :=
  match callResult with
  | .ok content => parse_ai_response content
  | .error e => [errorFinding e]

/-! ### Job Orchestrator (`app.py`, lines 109-171)

One job's record in the in-memory `validation_results` table.  The
background task `process_validation` mutates only this record; we model the
run as the list of successive record states it writes (one entry per
`update`/assignment), starting from the record `validate_thesis` creates.
Timestamps are opaque `Nat` clock readings.  The two operations that can
raise — the `PDFProcessor` constructor and `generate_annotated_pdf` — and
the external completion call are injected as `Except` parameters. -/

structure Job where
  status : List Char
  progress : List Char
  filename : List Char
  file_path : List Char
  started_at : Nat
  error_count : Nat
  errors : List JValue
  output_path : Option (List Char)
  download_url : Option (List Char)
  err : Option (List Char)
  completed_at : Option Nat

/-- The record created by `validate_thesis` (app.py lines 110-118) before the
background task is scheduled.  The code stores status string `"processing"`
at creation; no other status value is ever written before the terminal one. -/
def initJob (filename file_path : List Char) (t0 : Nat) : Job :=
  { status := "processing".toList,
    progress := "File uploaded, starting validation...".toList,
    filename := filename, file_path := file_path, started_at := t0,
    error_count := 0, errors := [],
    output_path := none, download_url := none, err := none, completed_at := none }

/-- The `except` branch of `process_validation` (lines 165-171): one update
setting status `"failed"`, the failure message, and `completed_at`. -/
def failUpdate (j : Job) (e : List Char) (now : Nat) : Job :=
  { j with status := "failed".toList,
           progress := "Validation failed: ".toList ++ e,
           err := some e, completed_at := some now }

/-- The success update of `process_validation` (lines 154-163): one
`update` call writing status `"completed"`, the findings, their count, the
artifact path, the download URL and `completed_at` together. -/
def completeUpdate (j : Job) (errs : List JValue) (output_path download_url : List Char)
    (now : Nat) : Job :=
  { j with status := "completed".toList,
           progress := "Validation completed successfully".toList,
           error_count := errs.length, errors := errs,
           output_path := some output_path, download_url := some download_url,
           completed_at := some now }

/-- Model of `process_validation` (lines 129-171) as the list of record states it
writes, in order.  `pdfInit` is the `PDFProcessor` constructor outcome,
`callResult` the external completion call's, `renderResult` the outcome of
`generate_annotated_pdf` (carrying the returned artifact path). -/
def processTrace (job_id : List Char) (init : Job)
    (pdfInit : Except (List Char) Unit)
    (callResult : Except (List Char) (List Char))
    (renderResult : Except (List Char) (List Char)) (now : Nat) : List Job :=
  let j1 := { init with progress := "Processing PDF...".toList }
  match pdfInit with
  | .error e => [j1, failUpdate j1 e now]
  | .ok _ =>
    let j2 := { j1 with progress := "Running AI validation agent...".toList }
    let errs := validate_with_ai callResult
    let j3 := { j2 with progress := "Generating annotated PDF...".toList }
    let output_filename := job_id ++ "_annotated.pdf".toList
    match renderResult with
    | .error e => [j1, j2, j3, failUpdate j3 e now]
    | .ok path =>
        [j1, j2, j3,
         completeUpdate j3 errs path ("/download/".toList ++ output_filename) now]

/-- Every record state a job's entry passes through: creation followed by the
background task's writes. -/
def fullTrace (job_id filename file_path : List Char) (t0 : Nat)
    (pdfInit : Except (List Char) Unit)
    (callResult : Except (List Char) (List Char))
    (renderResult : Except (List Char) (List Char)) (now : Nat) : List Job :=
  initJob filename file_path t0 ::
    processTrace job_id (initJob filename file_path t0) pdfInit callResult renderResult now

/-! ### Report Renderer (`pdf_annotator.py`)

Both renderers are modelled at the level of the text they emit: the rich
renderer (`PDFAnnotator`) as the ordered list of strings drawn on the
canvas (coordinates, colors and page breaks carry no information beyond
presentation), the plain renderer (`SimpleTextAnnotator`) as the exact
report string written to the output file.  A record access that Python
would raise on (`.get` on a non-dict record, `page_num + 1` on a
non-number, `message.split()` on a non-string, an unhashable severity in a
dict-membership test) makes the model return `none`. -/

/-- Decimal rendering of a `Nat`, as Python's `str`. -/
def natChars (n : Nat) : List Char := (Nat.repr n).toList

/-- Decimal rendering of an `Int`, as Python's `str`. -/
def intChars (n : Int) : List Char := (Int.repr n).toList

/-- Python `f"{v}"` on the scalar values the reports interpolate.  Python
would print a repr for list/dict values; those are outside the modelled
fragment. -/
def displayChars : JValue → Option (List Char)
  | .jstr s => some s
  | .jnum n => some (intChars n)
  | .jbool true => some ("True".toList)
  | .jbool false => some ("False".toList)
  | .jnull => some ("None".toList)
  | _ => none

/-- Python `error.get(key, default)`: `none` models the `AttributeError`
raised when the record is not a dict. -/
def jget (e : JValue) (key : List Char) (dflt : JValue) : Option JValue :=
  match e with
  | .jobj fs => some ((lookupFields fs key).getD dflt)
  | _ => none

/-- Python `page_num + 1` in the report detail line: defined on numbers (and
booleans, which Python treats as integers); any other value raises. -/
def pageSucc : JValue → Option Int
  | .jnum n => some (n + 1)
  | .jbool b => some (if b then 2 else 1)
  | _ => none

/-- Model of `error.get("severity", "UNKNOWN")` as both renderers' loops evaluate it. -/
def sevOf (e : JValue) : Option JValue :=
  jget e ("severity".toList) (.jstr ("UNKNOWN".toList))

/-- One step of the severity-tally loop shared by both renderers
(`pdf_annotator.py` lines 44-48 and 166-170): the severity defaults to
`"UNKNOWN"`, and a bucket is incremented only when the severity equals one
of the three keys of `error_counts` exactly.  An unhashable severity (list
or dict) raises in Python's `in` test. -/
def sevCountStep (acc : Nat × Nat × Nat) (e : JValue) : Option (Nat × Nat × Nat) :=
  match sevOf e with
  | some (JValue.jstr s) =>
    if s = "CRITICAL".toList then some (acc.1 + 1, acc.2.1, acc.2.2)
    else if s = "MAJOR".toList then some (acc.1, acc.2.1 + 1, acc.2.2)
    else if s = "MINOR".toList then some (acc.1, acc.2.1, acc.2.2 + 1)
    else some acc
  | some (JValue.jnum _) => some acc
  | some (JValue.jbool _) => some acc
  | some JValue.jnull => some acc
  | _ => none

/-- The severity tally of the rich renderer, `PDFAnnotator.create_annotated_pdf`
lines 44-48: counts of findings whose severity is exactly `CRITICAL`,
`MAJOR`, `MINOR`. -/
def sevCountsRich (errors : List JValue) : Option (Nat × Nat × Nat) :=
  errors.foldlM sevCountStep (0, 0, 0)

/-- The severity tally of the plain renderer,
`SimpleTextAnnotator.create_annotated_pdf` lines 166-170 (the same loop,
duplicated in the source). -/
def sevCountsPlain (errors : List JValue) : Option (Nat × Nat × Nat) :=
  errors.foldlM sevCountStep (0, 0, 0)

/-- Python `message.split()`: split on whitespace runs, dropping empties. -/
def pySplitAux : List Char → List Char → List (List Char)
  | [], acc => if acc = [] then [] else [acc.reverse]
  | c :: cs, acc =>
    if c.isWhitespace then
      if acc = [] then pySplitAux cs [] else acc.reverse :: pySplitAux cs []
    else pySplitAux cs (c :: acc)

def pySplit (s : List Char) : List (List Char) := pySplitAux s []

/-- The message word-wrap loop of the rich renderer (lines 96-107): each flushed
line keeps its trailing space, a line is flushed when appending the next word
would exceed 80 characters, and the remainder is flushed at the end if
non-empty. -/
def wrapMessage : List (List Char) → List Char → List (List Char)
  | [], line => if line = [] then [] else [line]
  | w :: ws, line =>
    if (line ++ w).length > 80 then line :: wrapMessage ws (w ++ [' '])
    else wrapMessage ws (line ++ w ++ [' '])

/-- The strings the rich renderer draws for the `i`-th (1-based) finding
(lines 73-108): the `"{i}. Page {page_num + 1} - {severity}"` header and the
word-wrapped message lines.  `message.split()` requires a string message. -/
def richErrorLines (i : Nat) (e : JValue) : Option (List (List Char)) :=
  match jget e ("severity".toList) (.jstr ("UNKNOWN".toList)),
        jget e ("message".toList) (.jstr ("No message".toList)),
        jget e ("page_num".toList) (.jnum 0) with
  | some sev, some msg, some pn =>
    match pageSucc pn, displayChars sev with
    | some p, some sevS =>
      (match msg with
       | .jstr msgS =>
         some ((natChars i ++ ". Page ".toList ++ intChars p ++ " - ".toList ++ sevS)
           :: wrapMessage (pySplit msgS) [])
       | _ => none)
    | _, _ => none
  | _, _, _ => none

/-- The detail section of the rich renderer: findings enumerated from 1. -/
def detailsRich : Nat → List JValue → Option (List (List Char))
  | _, [] => some []
  | i, e :: es =>
    match richErrorLines i e, detailsRich (i + 1) es with
    | some ls, some rest => some (ls ++ rest)
    | _, _ => none

/-- The fixed instruction strings of the rich renderer (lines 119-133). -/
def richInstructionLines : List (List Char) :=
  ["1. Critical Errors (🔴) - Must be fixed to meet FDV requirements".toList,
   "2. Major Errors (🟠) - Important formatting issues to address".toList,
   "3. Minor Errors (🟡) - Style recommendations for improvement".toList,
   "".toList,
   "Common Fixes:".toList,
   "• University name: Change to \x27UNIVERZA V LJUBLJANI\x27 (all caps)".toList,
   "• Faculty name: Change to \x27FAKULTETA ZA DRUŽBENE VEDE\x27 (all caps)".toList,
   "• Margins: Set left margin to 3.0cm, others to 2.5cm".toList,
   "• Font: Use Times New Roman, 12pt for main text".toList,
   "• Summary: Keep under 250 words".toList,
   "• Include all required sections (declaration, TOC, sources)".toList,
   "".toList,
   "After making changes, run validation again to check improvements.".toList]

/-- Model of `PDFAnnotator.create_annotated_pdf` (lines 17-144): the ordered list of
strings drawn on the canvas: title block, severity summary, per-finding
details, instruction page. -/
def richLines (errors : List JValue) (filename : List Char) : Option (List (List Char)) :=
  match sevCountsRich errors with
  | none => none
  | some (c, m, mi) =>
    match detailsRich 1 errors with
    | none => none
    | some details =>
      some (["FDV Thesis Validation Report".toList,
             "Original file: ".toList ++ filename,
             "Total errors found: ".toList ++ natChars errors.length,
             "🔴 Critical errors: ".toList ++ natChars c,
             "🟠 Major errors: ".toList ++ natChars m,
             "🟡 Minor errors: ".toList ++ natChars mi,
             "Error Details:".toList] ++ details
            ++ ("How to Fix These Errors:".toList :: richInstructionLines))

/-- The three report lines of the plain renderer for the `i`-th (1-based)
finding (lines 183-189). -/
def plainErrorLines (i : Nat) (e : JValue) : Option (List (List Char)) :=
  match jget e ("severity".toList) (.jstr ("UNKNOWN".toList)),
        jget e ("message".toList) (.jstr ("No message".toList)),
        jget e ("page_num".toList) (.jnum 0) with
  | some sev, some msg, some pn =>
    match pageSucc pn, displayChars sev, displayChars msg with
    | some p, some sevS, some msgS =>
      some [natChars i ++ ". Page ".toList ++ intChars p ++ " - ".toList ++ sevS,
            "   ".toList ++ msgS,
            []]
    | _, _, _ => none
  | _, _, _ => none

/-- The detail section of the plain renderer: findings enumerated from 1. -/
def detailsPlain : Nat → List JValue → Option (List (List Char))
  | _, [] => some []
  | i, e :: es =>
    match plainErrorLines i e, detailsPlain (i + 1) es with
    | some ls, some rest => some (ls ++ rest)
    | _, _ => none

/-- Model of `SimpleTextAnnotator.create_annotated_pdf` (lines 153-202): the exact
report content written to the output file, `'\n'.join(report_lines)`.  The
`now` parameter is the wall clock available to the renderer at invocation
time; the report body never consults it (the source calls no time or
randomness function), which is what the determinism theorem states. -/
def plainReport (errors : List JValue) (filename : List Char) (now : Nat) :
    Option (List Char) :=
  match sevCountsPlain errors with
  | none => none
  | some (c, m, mi) =>
    match detailsPlain 1 errors with
    | none => none
    | some details =>
      some (List.intercalate ['\n']
        ([List.replicate 60 '=',
          "FDV THESIS VALIDATION REPORT".toList,
          List.replicate 60 '=',
          [],
          "Original file: ".toList ++ filename,
          "Total errors found: ".toList ++ natChars errors.length,
          [],
          "ERROR SUMMARY:".toList,
          "Critical errors: ".toList ++ natChars c,
          "Major errors: ".toList ++ natChars m,
          "Minor errors: ".toList ++ natChars mi,
          [],
          "DETAILED ERRORS:".toList,
          List.replicate 40 '-'] ++ details
         ++ ["HOW TO FIX:".toList,
             "1. Address critical errors first".toList,
             "2. Fix major formatting issues".toList,
             "3. Consider minor improvements".toList,
             "4. Re-validate after changes".toList]))

/-- How a renderer run ends: `importError` models reportlab's absence raising
`ImportError` at the `from reportlab...` imports; `badRecord` models the
record-access exceptions (`AttributeError`/`TypeError`) the drawing and
report loops can raise. -/
inductive RenderError where
  | importError
  | badRecord
deriving DecidableEq, Repr

/-- The artifact written to the output path: a paged rich document or the
plain-text report saved under the `.pdf` extension. -/
inductive Artifact where
  | richDoc (lines : List (List Char))
  | textReport (content : List Char)
deriving DecidableEq, Repr

/-- Model of `PDFAnnotator.create_annotated_pdf` as a fallible renderer run: the
`from reportlab...` import at the top of the method raises `ImportError`
exactly when the dependency is absent; afterwards the drawing loops may
raise on malformed records. -/
def renderRich (reportlabAvailable : Bool) (errors : List JValue)
    (filename : List Char) : Except RenderError (List (List Char)) :=
  if !reportlabAvailable then .error .importError
  else
    match richLines errors filename with
    | some ls => .ok ls
    | none => .error .badRecord

/-- Model of `SimpleTextAnnotator.create_annotated_pdf` as a fallible renderer run. -/
def renderPlain (errors : List JValue) (filename : List Char) (now : Nat) :
    Except RenderError Artifact :=
  match plainReport errors filename now with
  | some r => .ok (Artifact.textReport r)
  | none => .error .badRecord

/-- The module-level `create_annotated_pdf` (lines 204-213): try the rich
renderer; `except ImportError` falls back to the plain renderer; any other
exception of either renderer propagates. -/
def create_annotated_pdf (reportlabAvailable : Bool) (errors : List JValue)
    (filename : List Char) (now : Nat) : Except RenderError Artifact :=
  match renderRich reportlabAvailable errors filename with
  | .ok ls => .ok (Artifact.richDoc ls)
  | .error .importError => renderPlain errors filename now
  | .error e => .error e

/-! ## Claims -/

/-- C1 (amended): for every extracted text of length 25000 characters, the
sample sent to the Judgment Engine is the concatenation of the first 10000
characters (unlabeled), the `--- MIDDLE SAMPLE ---` label followed by the
5000 characters starting at the midpoint (positions 12500..17499, not a
slice centered there), and the `--- END SECTION ---` label followed by the
last 5000 characters; no `FRONT` label is emitted. -/
theorem C1_sampling_at_25000 (t : List Char) (h : t.length = 25000) :
    combinedText t =
      t.take 10000 ++ "\n\n--- MIDDLE SAMPLE ---\n".toList ++ (t.drop 12500).take 5000
        ++ "\n\n--- END SECTION ---\n".toList ++ t.drop 20000 :=
  combinedText_of_length_25000 t h

/-- C1 witness: the amended sampling equation instantiated at the concrete
25000-character text `aaa...a`. -/
theorem C1_sampling_at_25000_witness :
    (List.replicate 25000 'a').length = 25000 ∧
      combinedText (List.replicate 25000 'a') =
        (List.replicate 25000 'a').take 10000 ++ "\n\n--- MIDDLE SAMPLE ---\n".toList
          ++ ((List.replicate 25000 'a').drop 12500).take 5000
          ++ "\n\n--- END SECTION ---\n".toList ++ (List.replicate 25000 'a').drop 20000 :=
  ⟨List.length_replicate 25000 'a',
   C1_sampling_at_25000 (List.replicate 25000 'a') (List.length_replicate 25000 'a')⟩

/-- C1 counterexample: at the 25000-character text `aaa...a` the sample the
code builds differs from the spec's sampling policy (first segment preceded
by a `FRONT` label, middle slice centered at the midpoint): the code's
sample starts with the text's own first character, not with a label. -/
theorem C1_sampling_counterexample :
    combinedText (List.replicate 25000 'a') ≠ specSample (List.replicate 25000 'a') := by
  intro h
  have h1 := combinedText_of_length_25000 (List.replicate 25000 'a')
    (List.length_replicate 25000 'a')
  have hA : (combinedText (List.replicate 25000 'a')).head? = some 'a' := by
    rw [h1]; rfl
  have hB : (specSample (List.replicate 25000 'a')).head? = some '-' := rfl
  rw [h, hB] at hA
  exact absurd hA (by decide)

/-- C2 counterexample: for the raw response consisting exactly of the line
`MUST be UNIVERZA V LJUBLJANI` (so it contains no bracketed list), the
heuristic tier emits no Finding at all — not one CRITICAL Finding — because
the line contains none of the trigger words; `MUST` is consulted only for
the severity of a line that already triggered.  The full Normalizer routes
this input to the heuristic tier and returns the same empty list. -/
theorem C2_must_line_counterexample :
    parse_text_response ("MUST be UNIVERZA V LJUBLJANI".toList) = [] ∧
      parse_ai_response ("MUST be UNIVERZA V LJUBLJANI".toList) = [] :=
  ⟨by decide, rfl⟩

/-- C2 (amended): a line yields a Finding only when it contains one of the
trigger words (CRITICAL, MAJOR, MINOR, ERROR, VIOLATION, WRONG, MISSING);
for a response whose only line is `ERROR: MUST be UNIVERZA V LJUBLJANI`
(trigger word plus `MUST`), the heuristic tier emits exactly one Finding
and its severity is CRITICAL. -/
theorem C2_trigger_line_critical :
    parse_text_response ("ERROR: MUST be UNIVERZA V LJUBLJANI".toList) =
      [{ page_num := 0, severity := "CRITICAL".toList,
         message := "ERROR: MUST be UNIVERZA V LJUBLJANI".toList,
         error_type := "formatting".toList }] := by
  decide

/-- C3 counterexample: the non-empty raw response `ok` (no trigger lines,
length 2 ≤ 50) makes the heuristic tier emit no Finding at all, so not every
non-empty response yields at least one Finding. -/
theorem C3_short_response_counterexample :
    "ok".toList ≠ [] ∧ parse_text_response ("ok".toList) = [] := by
  decide

/-- C3 (amended): when the line scan finds no trigger line, the heuristic
tier emits exactly one MAJOR Finding quoting the first 200 characters of the
raw response — provided the response is longer than 50 characters; shorter
responses yield no Finding. -/
theorem C3_fallback_when_no_triggers (r : List Char) (h1 : scanFindings r = [])
    (h2 : 50 < r.length) :
    parse_text_response r = [fallbackFinding r] := by
  simp [parse_text_response, h1, h2]

/-- C3 witness: the fallback Finding for the 60-character trigger-free
response `aaa...a`. -/
theorem C3_fallback_when_no_triggers_witness :
    scanFindings (List.replicate 60 'a') = [] ∧ 50 < (List.replicate 60 'a').length ∧
      parse_text_response (List.replicate 60 'a') = [fallbackFinding (List.replicate 60 'a')] :=
  ⟨by decide, by decide,
   C3_fallback_when_no_triggers (List.replicate 60 'a') (by decide) (by decide)⟩

/-- C4 counterexample: for the response `[{"severity": "BOGUS"}]` the
structured tier decodes successfully, yet the returned record keeps the
unknown severity `BOGUS` (not one of CRITICAL/MAJOR/MINOR, not mapped to
MINOR) and has no `page_num` and no `category` field at all — no defaults
are applied. -/
theorem C4_no_coercion_counterexample :
    parse_ai_response ("[\x7b\"severity\": \"BOGUS\"\x7d]".toList) =
        [JValue.jobj [("severity".toList, JValue.jstr ("BOGUS".toList))]] ∧
      jlookup (JValue.jobj [("severity".toList, JValue.jstr ("BOGUS".toList))])
          ("severity".toList) = some (JValue.jstr ("BOGUS".toList)) ∧
      jlookup (JValue.jobj [("severity".toList, JValue.jstr ("BOGUS".toList))])
          ("page_num".toList) = none ∧
      jlookup (JValue.jobj [("severity".toList, JValue.jstr ("BOGUS".toList))])
          ("category".toList) = none ∧
      "BOGUS".toList ∉ ["CRITICAL".toList, "MAJOR".toList, "MINOR".toList] :=
  ⟨rfl, rfl, rfl, rfl, by decide⟩

/-- C4 (amended): whenever the bracketed substring decodes successfully, the
structured tier returns the decoded records verbatim — no field defaulting
and no severity coercion is applied to them. -/
theorem C4_structured_tier_verbatim (resp json_str : List Char) (xs : List JValue)
    (h1 : bracketSlice resp = some json_str)
    (h2 : jsonParse json_str = some (JValue.jarr xs)) :
    parse_ai_response resp = xs := by
  simp [parse_ai_response, h1, h2]

/-- C4 witness: the verbatim pass-through at the concrete response
`[{"severity": "BOGUS"}]`. -/
theorem C4_structured_tier_verbatim_witness :
    bracketSlice ("[\x7b\"severity\": \"BOGUS\"\x7d]".toList) =
        some ("[\x7b\"severity\": \"BOGUS\"\x7d]".toList) ∧
      jsonParse ("[\x7b\"severity\": \"BOGUS\"\x7d]".toList) =
        some (JValue.jarr [JValue.jobj [("severity".toList, JValue.jstr ("BOGUS".toList))]]) ∧
      parse_ai_response ("[\x7b\"severity\": \"BOGUS\"\x7d]".toList) =
        [JValue.jobj [("severity".toList, JValue.jstr ("BOGUS".toList))]] :=
  ⟨rfl, rfl,
   C4_structured_tier_verbatim ("[\x7b\"severity\": \"BOGUS\"\x7d]".toList)
     ("[\x7b\"severity\": \"BOGUS\"\x7d]".toList)
     [JValue.jobj [("severity".toList, JValue.jstr ("BOGUS".toList))]] rfl rfl⟩

/-- C5: a failure of the single external text-completion call is not
retried: the Judgment Engine returns exactly one synthetic Finding, its
severity is CRITICAL, its message embeds the failure description, and the
job's record still ends in a terminal status (`completed`) rather than
staying in its pre-terminal state. -/
theorem C5_call_failure_single_critical (e path job_id filename file_path : List Char)
    (t0 now : Nat) :
    validate_with_ai (.error e) = [errorFinding e] ∧
      jlookup (errorFinding e) ("severity".toList) = some (JValue.jstr ("CRITICAL".toList)) ∧
      jlookup (errorFinding e) ("message".toList) =
        some (JValue.jstr ("AI validation failed: ".toList ++ e)) ∧
      List.IsSuffix e ("AI validation failed: ".toList ++ e) ∧
      (fullTrace job_id filename file_path t0 (.ok ()) (.error e) (.ok path) now).getLast?.map
          Job.status = some ("completed".toList) :=
  ⟨rfl, rfl, rfl, ⟨"AI validation failed: ".toList, rfl⟩, rfl⟩

/-- C6 counterexample: a concrete job run in which the status field holds
`processing` — a value outside the claim's state set
{queued, running, completed, failed} — so the status does not visit states
drawn from the claimed order `queued → running → {completed|failed}`. -/
theorem C6_status_names_counterexample :
    ¬ (∀ s ∈ (fullTrace [] [] [] 0 (.ok ()) (.ok []) (.ok []) 0).map Job.status,
        s ∈ ["queued".toList, "running".toList, "completed".toList, "failed".toList]) := by
  decide

/-- C6 (amended): for every created job, the status field visits states only
in the order `processing → {completed|failed}` — the code stores
`processing` from creation until the single terminal transition (it has no
distinct `queued` and `running` values) — and no state follows the terminal
one. -/
theorem C6_status_monotone (job_id filename file_path : List Char) (t0 now : Nat)
    (pdfInit : Except (List Char) Unit)
    (callResult renderResult : Except (List Char) (List Char)) :
    ∃ k t,
      (fullTrace job_id filename file_path t0 pdfInit callResult renderResult now).map
          Job.status = List.replicate k ("processing".toList) ++ [t]
        ∧ (t = "completed".toList ∨ t = "failed".toList) := by
  cases pdfInit with
  | error e => exact ⟨2, "failed".toList, rfl, Or.inr rfl⟩
  | ok u =>
    cases renderResult with
    | error e => exact ⟨4, "failed".toList, rfl, Or.inr rfl⟩
    | ok path => exact ⟨4, "completed".toList, rfl, Or.inl rfl⟩

/-- The status strings are pairwise distinct: `processing` vs `completed`. -/
theorem processing_ne_completed : ¬ ("processing".toList = "completed".toList) := by decide

/-- The status strings are pairwise distinct: `processing` vs `failed`. -/
theorem processing_ne_failed : ¬ ("processing".toList = "failed".toList) := by decide

/-- The status strings are pairwise distinct: `failed` vs `completed`. -/
theorem failed_ne_completed : ¬ ("failed".toList = "completed".toList) := by decide

/-- The status strings are pairwise distinct: `completed` vs `failed`. -/
theorem completed_ne_failed : ¬ ("completed".toList = "failed".toList) := by decide

/-- C7: in every state a job's record passes through, a `completed` status
comes with the output artifact path, the download URL, the completion time
and an error count equal to the findings list's length all set (the success
transition writes them in one update), and a `failed` record still has the
empty findings list it was created with — findings are never partially
populated. -/
theorem C7_completed_fields_atomic (job_id filename file_path : List Char) (t0 now : Nat)
    (pdfInit : Except (List Char) Unit)
    (callResult renderResult : Except (List Char) (List Char)) (j : Job)
    (hj : j ∈ fullTrace job_id filename file_path t0 pdfInit callResult renderResult now) :
    (j.status = "completed".toList →
        j.output_path.isSome ∧ j.download_url.isSome ∧ j.completed_at.isSome ∧
          j.error_count = j.errors.length) ∧
      (j.status = "failed".toList → j.errors = []) := by
  cases pdfInit with
  | error e =>
    simp only [fullTrace, processTrace, List.mem_cons, List.not_mem_nil, or_false] at hj
    rcases hj with rfl | rfl | rfl
    · exact ⟨fun h => absurd h processing_ne_completed, fun _ => rfl⟩
    · exact ⟨fun h => absurd h processing_ne_completed, fun _ => rfl⟩
    · exact ⟨fun h => absurd h failed_ne_completed, fun _ => rfl⟩
  | ok u =>
    cases renderResult with
    | error e =>
      simp only [fullTrace, processTrace, List.mem_cons, List.not_mem_nil, or_false] at hj
      rcases hj with rfl | rfl | rfl | rfl | rfl
      · exact ⟨fun h => absurd h processing_ne_completed, fun _ => rfl⟩
      · exact ⟨fun h => absurd h processing_ne_completed, fun _ => rfl⟩
      · exact ⟨fun h => absurd h processing_ne_completed, fun _ => rfl⟩
      · exact ⟨fun h => absurd h processing_ne_completed, fun _ => rfl⟩
      · exact ⟨fun h => absurd h failed_ne_completed, fun _ => rfl⟩
    | ok path =>
      simp only [fullTrace, processTrace, List.mem_cons, List.not_mem_nil, or_false] at hj
      rcases hj with rfl | rfl | rfl | rfl | rfl
      · exact ⟨fun h => absurd h processing_ne_completed, fun h => absurd h processing_ne_failed⟩
      · exact ⟨fun h => absurd h processing_ne_completed, fun h => absurd h processing_ne_failed⟩
      · exact ⟨fun h => absurd h processing_ne_completed, fun h => absurd h processing_ne_failed⟩
      · exact ⟨fun h => absurd h processing_ne_completed, fun h => absurd h processing_ne_failed⟩
      · exact ⟨fun _ => ⟨rfl, rfl, rfl, rfl⟩, fun h => absurd h completed_ne_failed⟩

/-- The final record of the concrete run used as the C7 witness: job id,
filenames and paths empty, clocks 0, all three fallible stages succeeding
with empty outcomes. -/
def finalJobDemo : Job :=
  { status := "completed".toList, progress := "Validation completed successfully".toList,
    filename := [], file_path := [], started_at := 0, error_count := 0, errors := [],
    output_path := some [], download_url := some ("/download/_annotated.pdf".toList),
    err := none, completed_at := some 0 }

/-- C7 witness: the completed final state of a concrete run has all its
completion fields populated. -/
theorem C7_completed_fields_atomic_witness :
    finalJobDemo ∈ fullTrace [] [] [] 0 (.ok ()) (.ok []) (.ok []) 0 ∧
      ((finalJobDemo.status = "completed".toList →
          finalJobDemo.output_path.isSome ∧ finalJobDemo.download_url.isSome ∧
            finalJobDemo.completed_at.isSome ∧
            finalJobDemo.error_count = finalJobDemo.errors.length) ∧
        (finalJobDemo.status = "failed".toList → finalJobDemo.errors = [])) := by
  have hm : finalJobDemo ∈ fullTrace [] [] [] 0 (.ok ()) (.ok []) (.ok []) 0 := by
    repeat first | exact List.mem_cons_self _ _ | apply List.mem_cons_of_mem
  exact ⟨hm, C7_completed_fields_atomic [] [] [] 0 0 (.ok ()) (.ok []) (.ok []) finalJobDemo hm⟩

/-- C8: report generation attempts the rich renderer first; the rich
renderer fails with `ImportError` exactly when the rich-format dependency is
absent, in which case generation falls back to the plain-text renderer; a
successful rich rendering is returned as-is, and any other rich-renderer
exception propagates to the caller. -/
theorem C8_renderer_selection (avail : Bool) (errors : List JValue)
    (filename : List Char) (now : Nat) :
    (renderRich avail errors filename = .error .importError ↔ avail = false) ∧
      (avail = false →
        create_annotated_pdf avail errors filename now = renderPlain errors filename now) ∧
      (∀ ls, renderRich avail errors filename = .ok ls →
        create_annotated_pdf avail errors filename now = .ok (Artifact.richDoc ls)) ∧
      (renderRich avail errors filename = .error .badRecord →
        create_annotated_pdf avail errors filename now = .error .badRecord) := by
  cases avail with
  | false =>
    refine ⟨by simp [renderRich], fun _ => by simp [create_annotated_pdf, renderRich], ?_, ?_⟩
    · intro ls h
      simp [renderRich] at h
    · intro h
      simp [renderRich] at h
  | true =>
    cases hR : richLines errors filename with
    | none =>
      refine ⟨?_, ?_, ?_, ?_⟩
      · simp [renderRich, hR]
      · intro h
        simp at h
      · intro ls h
        simp [renderRich, hR] at h
      · intro h
        simp [create_annotated_pdf, renderRich, hR]
    | some ls0 =>
      refine ⟨?_, ?_, ?_, ?_⟩
      · simp [renderRich, hR]
      · intro h
        simp at h
      · intro ls h
        simp [renderRich, hR] at h
        subst h
        simp [create_annotated_pdf, renderRich, hR]
      · intro h
        simp [renderRich, hR] at h

/-- C8 witness: with the rich-format dependency absent, generation returns
the plain renderer's outcome. -/
theorem C8_renderer_selection_witness :
    create_annotated_pdf false [] ("t.pdf".toList) 0 = renderPlain [] ("t.pdf".toList) 0 :=
  (C8_renderer_selection false [] ("t.pdf".toList) 0).2.1 rfl

/-- C9: the plain-text renderer is deterministic — the report it produces
for a given finding list and source filename does not depend on the clock
reading at invocation time, so two invocations on the same inputs produce
byte-identical content. -/
theorem C9_plain_report_deterministic (errors : List JValue) (filename : List Char)
    (t1 t2 : Nat) :
    plainReport errors filename t1 = plainReport errors filename t2 := rfl

/-- Whether a record's severity (defaulted to `UNKNOWN`) is exactly the
string `s` — the predicate the renderers' tally effectively counts. -/
def hasSeverity (s : List Char) (e : JValue) : Bool :=
  match sevOf e with
  | some (.jstr x) => x == s
  | _ => false

/-- One tally step increments each bucket exactly when the record's severity
is the bucket's exact string. -/
theorem sevCountStep_eq (acc acc2 : Nat × Nat × Nat) (e : JValue)
    (h : sevCountStep acc e = some acc2) :
    acc2.1 = acc.1 + (if hasSeverity ("CRITICAL".toList) e then 1 else 0) ∧
      acc2.2.1 = acc.2.1 + (if hasSeverity ("MAJOR".toList) e then 1 else 0) ∧
      acc2.2.2 = acc.2.2 + (if hasSeverity ("MINOR".toList) e then 1 else 0) := by
  cases hget : sevOf e with
  | none => simp [sevCountStep, hget] at h
  | some v =>
    cases v with
    | jstr s =>
      by_cases h1 : s = "CRITICAL".toList
      · subst h1
        simp +decide [sevCountStep, hget] at h
        subst h
        simp +decide [hasSeverity, hget]
      · by_cases h2 : s = "MAJOR".toList
        · subst h2
          simp +decide [sevCountStep, hget] at h
          subst h
          simp +decide [hasSeverity, hget]
        · by_cases h3 : s = "MINOR".toList
          · subst h3
            simp +decide [sevCountStep, hget] at h
            subst h
            simp +decide [hasSeverity, hget]
          · simp at h1 h2 h3
            simp [sevCountStep, hget, h1, h2, h3] at h
            subst h
            simp [hasSeverity, hget, h1, h2, h3]
    | jnum n =>
      simp [sevCountStep, hget] at h
      subst h
      simp [hasSeverity, hget]
    | jbool b =>
      simp [sevCountStep, hget] at h
      subst h
      simp [hasSeverity, hget]
    | jnull =>
      simp [sevCountStep, hget] at h
      subst h
      simp [hasSeverity, hget]
    | jarr xs => simp [sevCountStep, hget] at h
    | jobj fs => simp [sevCountStep, hget] at h

/-- The tally fold, run to completion from any accumulator, adds exactly the
per-severity exact-match counts. -/
theorem sevCounts_fold_eq (errors : List JValue) : ∀ acc r : Nat × Nat × Nat,
    List.foldlM sevCountStep acc errors = some r →
    r.1 = acc.1 + errors.countP (hasSeverity ("CRITICAL".toList)) ∧
      r.2.1 = acc.2.1 + errors.countP (hasSeverity ("MAJOR".toList)) ∧
      r.2.2 = acc.2.2 + errors.countP (hasSeverity ("MINOR".toList)) := by
  induction errors with
  | nil =>
    intro acc r h
    simp only [List.foldlM_nil] at h
    cases h
    simp
  | cons e es ih =>
    intro acc r h
    rw [List.foldlM_cons] at h
    cases hstep : sevCountStep acc e with
    | none => rw [hstep] at h; simp at h
    | some acc2 =>
      rw [hstep] at h
      simp only [Option.bind_eq_bind, Option.some_bind] at h
      have hrec := ih acc2 r h
      have hone := sevCountStep_eq acc acc2 e hstep
      simp only [List.countP_cons]
      omega

/-- Each record is counted in at most one of the three buckets. -/
theorem severity_buckets_disjoint (e : JValue) :
    (if hasSeverity ("CRITICAL".toList) e then 1 else 0)
      + (if hasSeverity ("MAJOR".toList) e then 1 else 0)
      + (if hasSeverity ("MINOR".toList) e then 1 else 0) ≤ 1 := by
  cases hget : sevOf e with
  | none => simp [hasSeverity, hget]
  | some v =>
    cases v with
    | jstr s =>
      by_cases h1 : s = "CRITICAL".toList <;> by_cases h2 : s = "MAJOR".toList <;>
        by_cases h3 : s = "MINOR".toList <;>
        simp_all +decide [hasSeverity, hget]
    | jnum n => simp [hasSeverity, hget]
    | jbool b => simp [hasSeverity, hget]
    | jnull => simp [hasSeverity, hget]
    | jarr xs => simp [hasSeverity, hget]
    | jobj fs => simp [hasSeverity, hget]

/-- The three exact-match counts together never exceed the list length. -/
theorem countP_severities_le (l : List JValue) :
    l.countP (hasSeverity ("CRITICAL".toList)) + l.countP (hasSeverity ("MAJOR".toList))
      + l.countP (hasSeverity ("MINOR".toList)) ≤ l.length := by
  induction l with
  | nil => simp
  | cons e es ih =>
    have hd := severity_buckets_disjoint e
    simp only [List.countP_cons, List.length_cons]
    omega

/-- C10 (implicit): in both renderers, the severity summary counts a finding
in a bucket exactly when its severity string is exactly `CRITICAL`, `MAJOR`
or `MINOR`; the three bucket counts never exceed the displayed total (the
list length), and for the one-element list whose finding carries severity
`BOGUS` the buckets are all 0 while the displayed total is 1, so the counts
sum to strictly less than the total. -/
theorem C10_severity_tally_exact :
    (∀ (errors : List JValue) (c m mi : Nat), sevCountsPlain errors = some (c, m, mi) →
        c = errors.countP (hasSeverity ("CRITICAL".toList)) ∧
          m = errors.countP (hasSeverity ("MAJOR".toList)) ∧
          mi = errors.countP (hasSeverity ("MINOR".toList)) ∧
          c + m + mi ≤ errors.length) ∧
      (∀ (errors : List JValue) (c m mi : Nat), sevCountsRich errors = some (c, m, mi) →
        c = errors.countP (hasSeverity ("CRITICAL".toList)) ∧
          m = errors.countP (hasSeverity ("MAJOR".toList)) ∧
          mi = errors.countP (hasSeverity ("MINOR".toList)) ∧
          c + m + mi ≤ errors.length) ∧
      (sevCountsPlain [JValue.jobj [("severity".toList, JValue.jstr ("BOGUS".toList))]] =
          some (0, 0, 0) ∧
        0 + 0 + 0 < ([JValue.jobj [("severity".toList, JValue.jstr ("BOGUS".toList))]] :
          List JValue).length) := by
  have main : ∀ (errors : List JValue) (c m mi : Nat),
      List.foldlM sevCountStep (0, 0, 0) errors = some (c, m, mi) →
      c = errors.countP (hasSeverity ("CRITICAL".toList)) ∧
        m = errors.countP (hasSeverity ("MAJOR".toList)) ∧
        mi = errors.countP (hasSeverity ("MINOR".toList)) ∧
        c + m + mi ≤ errors.length := by
    intro errors c m mi h
    have heq := sevCounts_fold_eq errors (0, 0, 0) (c, m, mi) h
    have hle := countP_severities_le errors
    simp only at heq
    omega
  exact ⟨main, main, rfl, by decide⟩

/-- C10 witness: the tally characterization at the one-element list whose
finding carries severity exactly `CRITICAL`. -/
theorem C10_severity_tally_exact_witness :
    sevCountsPlain [JValue.jobj [("severity".toList, JValue.jstr ("CRITICAL".toList))]] =
        some (1, 0, 0) ∧
      (1 = ([JValue.jobj [("severity".toList, JValue.jstr ("CRITICAL".toList))]] :
              List JValue).countP (hasSeverity ("CRITICAL".toList)) ∧
        0 = ([JValue.jobj [("severity".toList, JValue.jstr ("CRITICAL".toList))]] :
              List JValue).countP (hasSeverity ("MAJOR".toList)) ∧
        0 = ([JValue.jobj [("severity".toList, JValue.jstr ("CRITICAL".toList))]] :
              List JValue).countP (hasSeverity ("MINOR".toList)) ∧
        1 + 0 + 0 ≤ ([JValue.jobj [("severity".toList, JValue.jstr ("CRITICAL".toList))]] :
              List JValue).length) :=
  ⟨rfl, C10_severity_tally_exact.1
    [JValue.jobj [("severity".toList, JValue.jstr ("CRITICAL".toList))]] 1 0 0 rfl⟩

end TechCheck
